import Mathlib

/-!
Shallow embedding of the resilient polling / cache-fallback orchestrator of
octopus-home-mini: the `monitor` package (Monitor struct, poll,
checkInfluxHealth, tryReconnectInflux, SyncCache, cacheData, writeToInflux)
and the `cache` package (Cache with Add / GetAll / Clear / Count / save).

Modelling conventions:
- Go float64 measurement fields only pass through the orchestrator (they are
  never computed with), so they are represented as `Int`.
- Timestamps (time.Time) are represented as `Int`.
- External effects (Octopus fetch, InfluxDB writes, the health probe, the
  reconnect probe, on-disk snapshot writes) are oracles supplied as explicit
  inputs to each cycle; per-point sink write outcomes are a function
  `Nat → Bool` giving the success of the i-th write of a pass.
- Slack notifications, probes and sink/cache traffic are recorded in an event
  list so that ordering and frame properties can be stated.
-/

namespace OctopusMonitor

/-- cache.DataPoint (src/unnamed/part_005, lines 343-349). -/
structure DataPoint where
  Timestamp : Int
  ConsumptionDelta : Int
  Demand : Int
  CostDelta : Int
  Consumption : Int
deriving DecidableEq

/-- octopus.TelemetryData as consumed by the monitor (fields read at
client_test.go lines 896-903: ReadAt, ConsumptionDelta, Demand, CostDelta,
Consumption). -/
structure TelemetryData where
  ReadAt : Int
  ConsumptionDelta : Int
  Demand : Int
  CostDelta : Int
  Consumption : Int
deriving DecidableEq

/-- cache.Cache: the in-memory ordered list of pending data points
(src/unnamed/part_005, lines 352-356).  The on-disk snapshot is not part of
the state; `save` outcomes are supplied as oracles. -/
structure Cache where
  data : List DataPoint
deriving DecidableEq

/-- Cache.Add (part_005 lines 379-386): append the points, then save; the
save outcome is the returned error, the appended points stay in memory either
way.  `saveOk` is the oracle for the on-disk snapshot write. -/
def Cache.Add (c : Cache) (dataPoints : List DataPoint) (saveOk : Bool) :
    Cache × Except String Unit :=
  (⟨c.data ++ dataPoints⟩,
    if saveOk then Except.ok () else Except.error "failed to write cache file")

/-- Cache.GetAll (part_005 lines 394-402): a copy of the data list. -/
def Cache.GetAll (c : Cache) : List DataPoint := c.data

/-- Cache.Clear (part_005 lines 405-411): reset the in-memory list to empty,
then save; the emptied list stays even if the save fails. -/
def Cache.Clear (c : Cache) (saveOk : Bool) : Cache × Except String Unit :=
  (⟨[]⟩,
    if saveOk then Except.ok () else Except.error "failed to write cache file")

/-- Cache.Count (part_005 lines 414-419). -/
def Cache.Count (c : Cache) : Nat := c.data.length

/-- The configuration fields the monitor reads (pkg/config/config.go). -/
structure Config where
  PollInterval : Int
  ConsecutiveErrorThreshold : Nat
  MaxBackoffFactor : Nat
deriving DecidableEq

/-- defaultConfig (config.go lines 128-129). -/
def defaultConsecutiveErrorThreshold : Nat := 3

/-- defaultConfig (config.go lines 128-129). -/
def defaultMaxBackoffFactor : Nat := 4

/-- monitor.Monitor (client_test.go lines 622-636).  `hasInfluxClient`
models `InfluxClient != nil`. -/
structure Monitor where
  Cfg : Config
  hasInfluxClient : Bool
  LastPollTime : Int
  influxHealthy : Bool
  consecutiveErr : Nat
  degradedMode : Bool
  backoffFactor : Nat
deriving DecidableEq

/-- monitor.New (client_test.go lines 638-650): LastPollTime is the
construction time minus the poll interval; influxHealthy iff a client was
given; consecutiveErr is Go's zero value 0. -/
def Monitor.New (cfg : Config) (hasInfluxClient : Bool) (now : Int) : Monitor :=
  { Cfg := cfg
    hasInfluxClient := hasInfluxClient
    LastPollTime := now - cfg.PollInterval
    influxHealthy := hasInfluxClient
    consecutiveErr := 0
    degradedMode := false
    backoffFactor := 1 }

/-- Observable actions of one cycle, in execution order: the health probe
(InfluxClient.CheckConnection from checkInfluxHealth), the reconnect probe
(from tryReconnectInflux), entry into SyncCache, a writeToInflux pass over a
batch of n points, a Cache.Add of n points, and a Slack notification. -/
inductive Ev
  | probe (ok : Bool)
  | reconnect (ok : Bool)
  | syncInvoked
  | writeBatch (n : Nat)
  | cacheAdd (n : Nat)
  | note (msg : String)
deriving DecidableEq

/-- Index of the first failing write in a pass of n in-order writes whose
i-th outcome is `w i`; `none` when all n writes succeed. -/
def firstFailBefore (w : Nat → Bool) : Nat → Option Nat
  | 0 => none
  | n + 1 =>
    match firstFailBefore w n with
    | some i => some i
    | none => if w n then none else some n

/-- Monitor.writeToInflux (client_test.go lines 892-912): write the batch
point by point, returning the first error; on success, Flush.  `w i` is the
oracle outcome of the i-th write. -/
def writeToInflux (telemetryData : List TelemetryData) (w : Nat → Bool) :
    Except String Unit :=
  match firstFailBefore w telemetryData.length with
  | some _ => Except.error "write failed"
  | none => Except.ok ()

/-- The conversion from telemetry data to a cache point performed inside
Monitor.cacheData (client_test.go lines 918-926). -/
def toCacheDataPoint (d : TelemetryData) : DataPoint :=
  { Timestamp := d.ReadAt
    ConsumptionDelta := d.ConsumptionDelta
    Demand := d.Demand
    CostDelta := d.CostDelta
    Consumption := d.Consumption }

/-- Monitor.cacheData (client_test.go lines 915-937): convert the batch and
Cache.Add it; an Add error is only reported, the cycle continues. -/
def cacheData (c : Cache) (telemetryData : List TelemetryData) (saveOk : Bool) :
    Cache × List Ev :=
  let dataPoints := telemetryData.map toCacheDataPoint
  let r := c.Add dataPoints saveOk
  match r.2 with
  | Except.error _ =>
      (r.1, [Ev.cacheAdd dataPoints.length, Ev.note "Failed to cache data"])
  | Except.ok _ => (r.1, [Ev.cacheAdd dataPoints.length])

/-- Monitor.SyncCache (client_test.go lines 987-1031): skip unless healthy;
read a snapshot with GetAll; write it point by point and return on the first
failure (cache and monitor untouched); only after all writes succeed, Flush
and Cache.Clear.  `sw i` is the outcome of the i-th drain write and
`clearSaveOk` the outcome of the save inside Clear. -/
def Monitor.SyncCache (m : Monitor) (c : Cache) (sw : Nat → Bool)
    (clearSaveOk : Bool) : Monitor × Cache × List Ev :=
  if !m.influxHealthy then (m, c, [Ev.syncInvoked])
  else
    let cachedData := c.GetAll
    if cachedData.length = 0 then (m, c, [Ev.syncInvoked])
    else
      match firstFailBefore sw cachedData.length with
      | some _ =>
          (m, c, [Ev.syncInvoked, Ev.note "Failed to sync cached data"])
      | none =>
          let r := c.Clear clearSaveOk
          match r.2 with
          | Except.error _ =>
              (m, r.1, [Ev.syncInvoked, Ev.note "Failed to clear cache"])
          | Except.ok _ =>
              (m, r.1,
                [Ev.syncInvoked,
                  Ev.note "Successfully synced cached data points"])

/-- Monitor.checkInfluxHealth (client_test.go lines 940-959): probe the
connection, record the result as the new health, alert on either transition,
and on the unhealthy-to-healthy transition invoke SyncCache synchronously.
`probeOk` is the CheckConnection oracle. -/
def Monitor.checkInfluxHealth (m : Monitor) (c : Cache) (probeOk : Bool)
    (sw : Nat → Bool) (clearSaveOk : Bool) : Monitor × Cache × List Ev :=
  if !m.hasInfluxClient then (m, c, [])
  else
    let wasHealthy := m.influxHealthy
    let m1 := { m with influxHealthy := probeOk }
    if wasHealthy && !probeOk then
      (m1, c, [Ev.probe probeOk, Ev.note "Connection to InfluxDB lost"])
    else if !wasHealthy && probeOk then
      let r := m1.SyncCache c sw clearSaveOk
      (r.1, r.2.1,
        [Ev.probe probeOk, Ev.note "Connection to InfluxDB restored"]
          ++ r.2.2)
    else (m1, c, [Ev.probe probeOk])

/-- Monitor.tryReconnectInflux (client_test.go lines 962-984): an out-of-band
reachability probe (backoff.Retry around CheckConnection, summarized by the
oracle `reconnectOk`); on success mark healthy and invoke SyncCache. -/
def Monitor.tryReconnectInflux (m : Monitor) (c : Cache) (reconnectOk : Bool)
    (sw : Nat → Bool) (clearSaveOk : Bool) : Monitor × Cache × List Ev :=
  if !m.hasInfluxClient then (m, c, [])
  else if reconnectOk then
    let m1 := { m with influxHealthy := true }
    let r := m1.SyncCache c sw clearSaveOk
    (r.1, r.2.1,
      [Ev.reconnect true, Ev.note "Connection restored"] ++ r.2.2)
  else (m, c, [Ev.reconnect false])

/-- The per-cycle environment of Monitor.poll: the wall clock, the fetch
result, and the oracles for the health probe, the live write pass, the drain
write pass, the cache saves and the reconnect probe. -/
structure PollInput where
  now : Int
  fetch : Except String (List TelemetryData)
  probeOk : Bool
  writeOk : Nat → Bool
  syncWriteOk : Nat → Bool
  addSaveOk : Bool
  clearSaveOk : Bool
  reconnectOk : Bool

/-- The routing stage of Monitor.poll for a non-empty batch (client_test.go
lines 866-888, inline in poll there): run the health probe (which on an
unhealthy-to-healthy transition drains the cache), then either write the
batch to InfluxDB (falling back to the cache and marking the sink unhealthy
on write failure) or, while unhealthy, cache the batch and attempt a
reconnect. -/
def Monitor.routeData (m : Monitor) (c : Cache)
    (telemetryData : List TelemetryData) (inp : PollInput) :
    Monitor × Cache × List Ev :=
  let r1 := m.checkInfluxHealth c inp.probeOk inp.syncWriteOk inp.clearSaveOk
  let m3 := r1.1
  let c3 := r1.2.1
  let evs1 := r1.2.2
  if m3.influxHealthy then
    match writeToInflux telemetryData inp.writeOk with
    | Except.ok _ =>
        (m3, c3, evs1 ++ [Ev.writeBatch telemetryData.length])
    | Except.error _ =>
        let m4 := { m3 with influxHealthy := false }
        let r2 := cacheData c3 telemetryData inp.addSaveOk
        (m4, r2.1,
          evs1
            ++ [Ev.writeBatch telemetryData.length,
                Ev.note "Failed to write data"]
            ++ r2.2)
  else
    let r2 := cacheData c3 telemetryData inp.addSaveOk
    let r3 := m3.tryReconnectInflux r2.1 inp.reconnectOk inp.syncWriteOk
      inp.clearSaveOk
    (r3.1, r3.2.1, evs1 ++ r2.2 ++ r3.2.2)

/-- Monitor.poll (client_test.go lines 801-889), one cycle: fetch the window
[LastPollTime, now); on failure count the error and manage degraded mode /
backoff; on success exit degraded mode, reset the error count, advance
LastPollTime, and if the batch is non-empty route it (routeData). -/
def Monitor.poll (m : Monitor) (c : Cache) (inp : PollInput) :
    Monitor × Cache × List Ev :=
  match inp.fetch with
  | Except.error _ =>
    let m1 := { m with consecutiveErr := m.consecutiveErr + 1 }
    if m1.Cfg.ConsecutiveErrorThreshold ≤ m1.consecutiveErr then
      if !m1.degradedMode then
        ({ m1 with degradedMode := true, backoffFactor := 2 }, c,
          [Ev.note "Entering degraded mode"])
      else if m1.backoffFactor < m1.Cfg.MaxBackoffFactor then
        ({ m1 with backoffFactor := m1.backoffFactor + 1 }, c, [])
      else (m1, c, [])
    else (m1, c, [])
  | Except.ok telemetryData =>
    let m1 :=
      if m.degradedMode then
        { m with degradedMode := false, backoffFactor := 1 }
      else m
    let evs0 : List Ev :=
      if m.degradedMode then [Ev.note "Recovered from degraded mode"] else []
    let m2 := { m1 with consecutiveErr := 0, LastPollTime := inp.now }
    if telemetryData.length = 0 then (m2, c, evs0)
    else
      let r := m2.routeData c telemetryData inp
      (r.1, r.2.1, evs0 ++ r.2.2)

/-- Repeated poll cycles (Monitor.Run, client_test.go lines 777-798, runs
one poll per tick; the timer re-arm itself is real time and not modelled).
Events are not accumulated; single-cycle theorems inspect them. -/
def runPolls : Monitor → Cache → List PollInput → Monitor × Cache
  | m, c, [] => (m, c)
  | m, c, inp :: rest => runPolls (m.poll c inp).1 (m.poll c inp).2.1 rest

/-- The poll window of a cycle started in state `m` with environment `inp`:
start = LastPollTime, end = now (client_test.go lines 806-808). -/
def pollWindow (m : Monitor) (inp : PollInput) : Int × Int :=
  (m.LastPollTime, inp.now)

/-- Monitor.SyncCache with a concurrent Cache.Add interleaved between the
snapshot read (Cache.GetAll, client_test.go line 992) and Cache.Clear
(line 1024): the interleaving the spec's "entries added concurrently during
the drain" sentence describes.  `extra` is the concurrently pushed batch. -/
def Monitor.SyncCacheWithConcurrentAdd (m : Monitor) (c : Cache)
    (extra : List DataPoint) (addSaveOk : Bool) (sw : Nat → Bool)
    (clearSaveOk : Bool) : Monitor × Cache × List Ev :=
  if !m.influxHealthy then (m, c, [Ev.syncInvoked])
  else
    let cachedData := c.GetAll
    if cachedData.length = 0 then (m, c, [Ev.syncInvoked])
    else
      let cMid := (c.Add extra addSaveOk).1
      match firstFailBefore sw cachedData.length with
      | some _ =>
          (m, cMid, [Ev.syncInvoked, Ev.note "Failed to sync cached data"])
      | none =>
          let r := cMid.Clear clearSaveOk
          match r.2 with
          | Except.error _ =>
              (m, r.1, [Ev.syncInvoked, Ev.note "Failed to clear cache"])
          | Except.ok _ =>
              (m, r.1,
                [Ev.syncInvoked,
                  Ev.note "Successfully synced cached data points"])

/-! ### Helper lemmas -/

/-- SyncCache never modifies the monitor: every branch returns `m`
(in particular influxHealthy is left as it was). -/
theorem SyncCache_monitor (m : Monitor) (c : Cache) (sw : Nat → Bool)
    (clearSaveOk : Bool) : (m.SyncCache c sw clearSaveOk).1 = m := by
  unfold Monitor.SyncCache
  by_cases h : m.influxHealthy
  · simp only [h, Bool.not_true, Bool.false_eq_true, if_false]
    split
    · rfl
    · split
      · rfl
      · split <;> rfl
  · simp [h]

/-- The event list of SyncCache always starts with the invocation marker. -/
theorem SyncCache_events_head (m : Monitor) (c : Cache) (sw : Nat → Bool)
    (clearSaveOk : Bool) :
    ∃ rest, (m.SyncCache c sw clearSaveOk).2.2 = Ev.syncInvoked :: rest := by
  unfold Monitor.SyncCache
  by_cases h : m.influxHealthy <;> simp [h]
  split
  · exact ⟨[], rfl⟩
  · split
    · exact ⟨[Ev.note "Failed to sync cached data"], rfl⟩
    · split
      · exact ⟨[Ev.note "Failed to clear cache"], rfl⟩
      · exact ⟨[Ev.note "Successfully synced cached data points"], rfl⟩

/-- All monitor fields except influxHealthy are untouched by `f m`. -/
def OnlyHealthChanged (m r : Monitor) : Prop :=
  r.Cfg = m.Cfg ∧ r.hasInfluxClient = m.hasInfluxClient ∧
  r.LastPollTime = m.LastPollTime ∧ r.consecutiveErr = m.consecutiveErr ∧
  r.degradedMode = m.degradedMode ∧ r.backoffFactor = m.backoffFactor

/-- checkInfluxHealth changes at most influxHealthy on the monitor. -/
theorem checkInfluxHealth_frame (m : Monitor) (c : Cache) (probeOk : Bool)
    (sw : Nat → Bool) (clearSaveOk : Bool) :
    OnlyHealthChanged m (m.checkInfluxHealth c probeOk sw clearSaveOk).1 := by
  unfold Monitor.checkInfluxHealth OnlyHealthChanged
  by_cases hc : m.hasInfluxClient <;> simp [hc]
  by_cases hw : m.influxHealthy <;> by_cases hp : probeOk <;>
    simp [hw, hp, SyncCache_monitor]

/-- tryReconnectInflux changes at most influxHealthy on the monitor. -/
theorem tryReconnectInflux_frame (m : Monitor) (c : Cache)
    (reconnectOk : Bool) (sw : Nat → Bool) (clearSaveOk : Bool) :
    OnlyHealthChanged m (m.tryReconnectInflux c reconnectOk sw clearSaveOk).1 := by
  unfold Monitor.tryReconnectInflux OnlyHealthChanged
  by_cases hc : m.hasInfluxClient <;> by_cases hr : reconnectOk <;>
    simp [hc, hr, SyncCache_monitor]

/-- routeData changes at most influxHealthy on the monitor. -/
theorem routeData_frame (m : Monitor) (c : Cache)
    (telemetryData : List TelemetryData) (inp : PollInput) :
    OnlyHealthChanged m (m.routeData c telemetryData inp).1 := by
  unfold Monitor.routeData
  have h1 := checkInfluxHealth_frame m c inp.probeOk inp.syncWriteOk
    inp.clearSaveOk
  by_cases hh :
      (m.checkInfluxHealth c inp.probeOk inp.syncWriteOk
        inp.clearSaveOk).1.influxHealthy
  · simp only [hh, if_true]
    cases hw : writeToInflux telemetryData inp.writeOk with
    | ok _ => simpa using h1
    | error _ =>
        obtain ⟨a, b, d, e, f, g⟩ := h1
        exact ⟨a, b, d, e, f, g⟩
  · simp only [hh, if_false, Bool.false_eq_true]
    have h2 := tryReconnectInflux_frame
      (m.checkInfluxHealth c inp.probeOk inp.syncWriteOk inp.clearSaveOk).1
      (cacheData
        (m.checkInfluxHealth c inp.probeOk inp.syncWriteOk inp.clearSaveOk).2.1
        telemetryData inp.addSaveOk).1
      inp.reconnectOk inp.syncWriteOk inp.clearSaveOk
    obtain ⟨a1, b1, d1, e1, f1, g1⟩ := h1
    obtain ⟨a2, b2, d2, e2, f2, g2⟩ := h2
    exact ⟨a2.trans a1, b2.trans b1, d2.trans d1, e2.trans e1,
      f2.trans f1, g2.trans g1⟩

/-- The explicit state transformer of a fetch-failure cycle
(client_test.go lines 817-846). -/
def pollFailStep (m : Monitor) : Monitor :=
  let m1 := { m with consecutiveErr := m.consecutiveErr + 1 }
  if m1.Cfg.ConsecutiveErrorThreshold ≤ m1.consecutiveErr then
    if !m1.degradedMode then { m1 with degradedMode := true, backoffFactor := 2 }
    else if m1.backoffFactor < m1.Cfg.MaxBackoffFactor then
      { m1 with backoffFactor := m1.backoffFactor + 1 }
    else m1
  else m1

/-- A cycle whose fetch fails performs exactly `pollFailStep` on the monitor,
leaves the cache alone, and emits the degraded-mode alert exactly on the
threshold-crossing cycle. -/
theorem poll_fail (m : Monitor) (c : Cache) (inp : PollInput) (e : String)
    (h : inp.fetch = Except.error e) :
    m.poll c inp =
      (pollFailStep m, c,
        if m.Cfg.ConsecutiveErrorThreshold ≤ m.consecutiveErr + 1 ∧
            m.degradedMode = false
        then [Ev.note "Entering degraded mode"] else []) := by
  unfold Monitor.poll pollFailStep
  rw [h]
  by_cases ht : m.Cfg.ConsecutiveErrorThreshold ≤ m.consecutiveErr + 1 <;>
    by_cases hd : m.degradedMode <;>
      simp [ht, hd] <;>
        by_cases hb : m.backoffFactor < m.Cfg.MaxBackoffFactor <;> simp [hb]

/-- The monitor state the bookkeeping prefix of a fetch-success cycle leaves
before routing (exit degraded mode, reset the error count, advance
LastPollTime). -/
def pollSuccessState (m : Monitor) (now : Int) : Monitor :=
  { m with degradedMode := false
           backoffFactor := if m.degradedMode then 1 else m.backoffFactor
           consecutiveErr := 0
           LastPollTime := now }

/-- A fetch-success cycle is the bookkeeping prefix followed (for a
non-empty batch) by routeData. -/
theorem poll_success_eq (m : Monitor) (c : Cache) (inp : PollInput)
    (data : List TelemetryData) (h : inp.fetch = Except.ok data) :
    m.poll c inp =
      (if data.length = 0 then
        (pollSuccessState m inp.now, c,
          if m.degradedMode then [Ev.note "Recovered from degraded mode"]
          else [])
      else
        let r := (pollSuccessState m inp.now).routeData c data inp
        (r.1, r.2.1,
          (if m.degradedMode then [Ev.note "Recovered from degraded mode"]
            else ([] : List Ev)) ++ r.2.2)) := by
  unfold Monitor.poll pollSuccessState
  rw [h]
  by_cases hd : m.degradedMode <;> simp [hd]

/-- The monitor after a fetch-success cycle: degraded mode is exited, the
error count reset, LastPollTime advanced to the window end; backoffFactor is
reset to 1 when the cycle started degraded and untouched otherwise; Cfg and
hasInfluxClient never change. -/
theorem poll_success_monitor (m : Monitor) (c : Cache) (inp : PollInput)
    (data : List TelemetryData) (h : inp.fetch = Except.ok data) :
    (m.poll c inp).1.degradedMode = false ∧
    (m.poll c inp).1.backoffFactor =
      (if m.degradedMode then 1 else m.backoffFactor) ∧
    (m.poll c inp).1.consecutiveErr = 0 ∧
    (m.poll c inp).1.LastPollTime = inp.now ∧
    (m.poll c inp).1.Cfg = m.Cfg ∧
    (m.poll c inp).1.hasInfluxClient = m.hasInfluxClient := by
  rw [poll_success_eq m c inp data h]
  by_cases hl : data.length = 0
  · rw [if_pos hl]
    exact ⟨rfl, rfl, rfl, rfl, rfl, rfl⟩
  · rw [if_neg hl]
    obtain ⟨a, b, d, e, f, g⟩ :=
      routeData_frame (pollSuccessState m inp.now) c data inp
    exact ⟨f, g, e, d, a, b⟩

/-- The monitor after k consecutive fetch-failure cycles. -/
def failIter (m : Monitor) : Nat → Monitor
  | 0 => m
  | k + 1 => pollFailStep (failIter m k)

theorem failIter_shift (m : Monitor) (k : Nat) :
    failIter (pollFailStep m) k = failIter m (k + 1) := by
  induction k with
  | zero => rfl
  | succ n ih => simp only [failIter, ih]

/-- The cycle's fetch from the Octopus API failed. -/
def PollInput.fetchFails (inp : PollInput) : Prop :=
  ∃ e, inp.fetch = Except.error e

theorem runPolls_allFail (l : List PollInput) :
    ∀ (m : Monitor) (c : Cache), (∀ inp ∈ l, inp.fetchFails) →
      runPolls m c l = (failIter m l.length, c) := by
  induction l with
  | nil => intro m c _; rfl
  | cons inp rest ih =>
      intro m c hall
      obtain ⟨e, he⟩ := hall inp (by simp)
      have hp := poll_fail m c inp e he
      simp only [runPolls, hp]
      rw [ih (pollFailStep m) c (fun i hi => hall i (by simp [hi]))]
      rw [failIter_shift]
      rfl

/-- Full description of the state after k consecutive fetch failures from a
fresh monitor: the error count is k; below the threshold the monitor is not
degraded and backoff is 1; from the threshold on it is degraded with backoff
min (k - threshold + 2) max (for max at least 2; a max of at most 1 pins the
backoff at the entry value 2). -/
theorem failIter_New_spec (cfg : Config) (hc : Bool) (now : Int) (k : Nat)
    (hth : 1 ≤ cfg.ConsecutiveErrorThreshold) :
    (failIter (Monitor.New cfg hc now) k).Cfg = cfg ∧
    (failIter (Monitor.New cfg hc now) k).consecutiveErr = k ∧
    (failIter (Monitor.New cfg hc now) k).influxHealthy = hc ∧
    (failIter (Monitor.New cfg hc now) k).LastPollTime =
      now - cfg.PollInterval ∧
    (k < cfg.ConsecutiveErrorThreshold →
      (failIter (Monitor.New cfg hc now) k).degradedMode = false ∧
      (failIter (Monitor.New cfg hc now) k).backoffFactor = 1) ∧
    (cfg.ConsecutiveErrorThreshold ≤ k →
      (failIter (Monitor.New cfg hc now) k).degradedMode = true ∧
      (2 ≤ cfg.MaxBackoffFactor →
        (failIter (Monitor.New cfg hc now) k).backoffFactor =
          min (k - cfg.ConsecutiveErrorThreshold + 2) cfg.MaxBackoffFactor) ∧
      (cfg.MaxBackoffFactor ≤ 1 →
        (failIter (Monitor.New cfg hc now) k).backoffFactor = 2)) := by
  induction k with
  | zero =>
      refine ⟨rfl, rfl, rfl, rfl, fun _ => ⟨rfl, rfl⟩, fun hk => ?_⟩
      omega
  | succ n ih =>
      obtain ⟨hcfg, herr, hhl, hlp, hlow, hhigh⟩ := ih
      have hstep : failIter (Monitor.New cfg hc now) (n + 1) =
          pollFailStep (failIter (Monitor.New cfg hc now) n) := rfl
      set M := failIter (Monitor.New cfg hc now) n with hM
      rw [hstep]
      unfold pollFailStep
      by_cases ht : cfg.ConsecutiveErrorThreshold ≤ n + 1
      · have ht' : M.Cfg.ConsecutiveErrorThreshold ≤ M.consecutiveErr + 1 := by
          rw [hcfg, herr]; exact ht
        rw [if_pos ht']
        by_cases hd : M.degradedMode
        · -- already degraded: the error count was already at or past the
          -- threshold, so the backoff grows toward the cap
          have hn : cfg.ConsecutiveErrorThreshold ≤ n := by
            by_contra hlt
            have := (hlow (by omega)).1
            rw [this] at hd
            exact Bool.false_ne_true hd
          obtain ⟨_, hb2, hb1⟩ := hhigh hn
          simp only [hd, Bool.not_true, Bool.false_eq_true, if_false]
          by_cases hb : M.backoffFactor < M.Cfg.MaxBackoffFactor
          · rw [if_pos hb]
            refine ⟨hcfg, by simp [herr], hhl, hlp,
              fun hk => absurd hk (by omega),
              fun hk => ⟨rfl, fun hmx => ?_, fun hmx => ?_⟩⟩
            · have := hb2 hmx
              rw [hcfg] at hb
              simp only [this] at hb ⊢
              omega
            · have := hb1 hmx
              rw [hcfg] at hb
              omega
          · rw [if_neg hb]
            refine ⟨hcfg, by simp [herr], hhl, hlp,
              fun hk => absurd hk (by omega),
              fun hk => ⟨rfl, fun hmx => ?_, fun hmx => ?_⟩⟩
            · have := hb2 hmx
              rw [hcfg] at hb
              simp only [this] at hb ⊢
              omega
            · exact hb1 hmx
        · -- crossing the threshold: enter degraded mode with backoff 2
          have hn : n < cfg.ConsecutiveErrorThreshold := by
            by_contra hge
            have := (hhigh (by omega)).1
            rw [this] at hd
            exact hd rfl
          have hdf : M.degradedMode = false := by
            cases hMd : M.degradedMode
            · rfl
            · exact absurd hMd hd
          simp only [hdf, Bool.not_false, if_true]
          refine ⟨hcfg, by simp [herr], hhl, hlp,
            fun hk => absurd hk (by omega),
            fun hk => ⟨trivial, fun hmx => ?_, fun _ => trivial⟩⟩
          have : n + 1 = cfg.ConsecutiveErrorThreshold := by omega
          omega
      · have ht' : ¬ M.Cfg.ConsecutiveErrorThreshold ≤ M.consecutiveErr + 1 := by
          rw [hcfg, herr]; exact ht
        rw [if_neg ht']
        have hn : n + 1 < cfg.ConsecutiveErrorThreshold := by omega
        obtain ⟨hdl, hbl⟩ := hlow (by omega)
        exact ⟨hcfg, by simp [herr], hhl, hlp,
          fun _ => ⟨hdl, hbl⟩, fun hk => absurd hk ht⟩

/-- The MonitorState invariant of the spec: degraded iff the error count has
reached the threshold, and baseline backoff whenever not degraded. -/
def MonitorInv (m : Monitor) : Prop :=
  (m.degradedMode = true ↔
    m.Cfg.ConsecutiveErrorThreshold ≤ m.consecutiveErr) ∧
  (m.degradedMode = false → m.backoffFactor = 1)

theorem MonitorInv_New (cfg : Config) (hc : Bool) (now : Int)
    (hth : 1 ≤ cfg.ConsecutiveErrorThreshold) :
    MonitorInv (Monitor.New cfg hc now) := by
  constructor
  · simp only [Monitor.New]
    constructor
    · intro h; exact absurd h (Bool.false_ne_true)
    · intro h; omega
  · intro _; rfl

/-- A fetch-failure step changes only the error count, degraded flag and
backoff factor; the error count always increments. -/
theorem pollFailStep_frame (m : Monitor) :
    (pollFailStep m).Cfg = m.Cfg ∧
    (pollFailStep m).hasInfluxClient = m.hasInfluxClient ∧
    (pollFailStep m).influxHealthy = m.influxHealthy ∧
    (pollFailStep m).LastPollTime = m.LastPollTime ∧
    (pollFailStep m).consecutiveErr = m.consecutiveErr + 1 := by
  unfold pollFailStep
  by_cases ht : m.Cfg.ConsecutiveErrorThreshold ≤ m.consecutiveErr + 1 <;>
    by_cases hd : m.degradedMode <;>
      by_cases hb : m.backoffFactor < m.Cfg.MaxBackoffFactor <;>
        simp [ht, hd, hb]

theorem poll_Cfg (m : Monitor) (c : Cache) (inp : PollInput) :
    (m.poll c inp).1.Cfg = m.Cfg := by
  cases hf : inp.fetch with
  | error e =>
      rw [poll_fail m c inp e hf]
      exact (pollFailStep_frame m).1
  | ok data => exact (poll_success_monitor m c inp data hf).2.2.2.2.1

theorem MonitorInv_poll (m : Monitor) (c : Cache) (inp : PollInput)
    (hth : 1 ≤ m.Cfg.ConsecutiveErrorThreshold) (h : MonitorInv m) :
    MonitorInv (m.poll c inp).1 := by
  obtain ⟨h1, h2⟩ := h
  cases hf : inp.fetch with
  | error e =>
      rw [poll_fail m c inp e hf]
      unfold pollFailStep MonitorInv
      by_cases ht : m.Cfg.ConsecutiveErrorThreshold ≤ m.consecutiveErr + 1
      · rw [if_pos ht]
        by_cases hd : m.degradedMode
        · simp only [hd, Bool.not_true, Bool.false_eq_true, if_false]
          split
          · exact ⟨by simp [ht], by simp⟩
          · exact ⟨by simp [ht, hd], by simp [hd]⟩
        · simp only [hd, Bool.not_false, if_true]
          exact ⟨by simp [ht], by simp⟩
      · rw [if_neg ht]
        constructor
        · simp only [h1]
          omega
        · exact h2
  | ok data =>
      obtain ⟨d1, d2, d3, d4, d5, _⟩ := poll_success_monitor m c inp data hf
      constructor
      · rw [d1, d3, d5]
        constructor
        · intro hfalse; exact absurd hfalse (Bool.false_ne_true)
        · intro hle; omega
      · intro _
        rw [d2]
        by_cases hd : m.degradedMode
        · simp [hd]
        · simp only [hd, if_false, Bool.false_eq_true]
          exact h2 (by simp [hd])

/-- While degraded mode persists across a cycle, the backoff factor never
decreases. -/
theorem poll_backoff_mono (m : Monitor) (c : Cache) (inp : PollInput)
    (hd : m.degradedMode = true)
    (hd' : (m.poll c inp).1.degradedMode = true) :
    m.backoffFactor ≤ (m.poll c inp).1.backoffFactor := by
  cases hf : inp.fetch with
  | ok data =>
      have := (poll_success_monitor m c inp data hf).1
      rw [this] at hd'
      exact absurd hd' Bool.false_ne_true
  | error e =>
      rw [poll_fail m c inp e hf]
      show m.backoffFactor ≤ (pollFailStep m).backoffFactor
      unfold pollFailStep
      by_cases ht : m.Cfg.ConsecutiveErrorThreshold ≤ m.consecutiveErr + 1 <;>
        by_cases hb : m.backoffFactor < m.Cfg.MaxBackoffFactor <;>
          simp [ht, hd, hb] <;> omega

theorem runPolls_inv (l : List PollInput) :
    ∀ (m : Monitor) (c : Cache), 1 ≤ m.Cfg.ConsecutiveErrorThreshold →
      MonitorInv m →
      MonitorInv (runPolls m c l).1 ∧ (runPolls m c l).1.Cfg = m.Cfg := by
  induction l with
  | nil => intro m c _ h; exact ⟨h, rfl⟩
  | cons inp rest ih =>
      intro m c hth h
      simp only [runPolls]
      have hcfg := poll_Cfg m c inp
      have hstep := MonitorInv_poll m c inp hth h
      obtain ⟨ha, hb⟩ := ih (m.poll c inp).1 (m.poll c inp).2.1
        (by rw [hcfg]; exact hth) hstep
      exact ⟨ha, by rw [hb, hcfg]⟩

/-! ### Cache-routing lemmas -/

/-- cacheData always appends the converted batch to the in-memory list,
whether or not the snapshot save succeeds. -/
theorem cacheData_cache (c : Cache) (telemetryData : List TelemetryData)
    (saveOk : Bool) :
    (cacheData c telemetryData saveOk).1 =
      ⟨c.data ++ telemetryData.map toCacheDataPoint⟩ := by
  unfold cacheData Cache.Add
  split <;> rfl

/-- A failing health probe leaves an unhealthy monitor unhealthy and the
cache untouched (with or without a client). -/
theorem checkInfluxHealth_probeFail (m : Monitor) (c : Cache)
    (sw : Nat → Bool) (clearSaveOk : Bool) (hh : m.influxHealthy = false) :
    (m.checkInfluxHealth c false sw clearSaveOk).1.influxHealthy = false ∧
    (m.checkInfluxHealth c false sw clearSaveOk).2.1 = c := by
  unfold Monitor.checkInfluxHealth
  by_cases hcl : m.hasInfluxClient <;> simp [hcl, hh]

/-- With a failing reconnect probe, tryReconnectInflux changes nothing but
the event trace. -/
theorem tryReconnectInflux_fail (m : Monitor) (c : Cache) (sw : Nat → Bool)
    (clearSaveOk : Bool) :
    (m.tryReconnectInflux c false sw clearSaveOk).1 = m ∧
    (m.tryReconnectInflux c false sw clearSaveOk).2.1 = c := by
  unfold Monitor.tryReconnectInflux
  by_cases hcl : m.hasInfluxClient <;> simp [hcl]

/-- Routing a batch while unhealthy with failing probe and reconnect: the
batch is appended whole to the cache and the monitor stays unhealthy. -/
theorem routeData_unhealthy (m : Monitor) (c : Cache)
    (data : List TelemetryData) (inp : PollInput)
    (hh : m.influxHealthy = false) (hp : inp.probeOk = false)
    (hr : inp.reconnectOk = false) :
    (m.routeData c data inp).1.influxHealthy = false ∧
    (m.routeData c data inp).2.1.data =
      c.data ++ data.map toCacheDataPoint := by
  unfold Monitor.routeData
  rw [hp, hr]
  obtain ⟨hch1, hch2⟩ := checkInfluxHealth_probeFail m c inp.syncWriteOk
    inp.clearSaveOk hh
  simp only [hch1, Bool.false_eq_true, if_false]
  rw [hch2, cacheData_cache]
  obtain ⟨htr1, htr2⟩ := tryReconnectInflux_fail
    (m.checkInfluxHealth c false inp.syncWriteOk inp.clearSaveOk).1
    ⟨c.data ++ data.map toCacheDataPoint⟩ inp.syncWriteOk inp.clearSaveOk
  rw [htr1, htr2]
  exact ⟨hch1, rfl⟩

/-- One successful-fetch cycle against an unreachable sink (probe and
reconnect both fail): the whole batch is appended to the cache and the
monitor stays unhealthy. -/
theorem poll_unhealthy_caches (m : Monitor) (c : Cache) (inp : PollInput)
    (data : List TelemetryData) (hh : m.influxHealthy = false)
    (hf : inp.fetch = Except.ok data) (hne : data.length ≠ 0)
    (hp : inp.probeOk = false) (hr : inp.reconnectOk = false) :
    (m.poll c inp).2.1.data = c.data ++ data.map toCacheDataPoint ∧
    (m.poll c inp).1.influxHealthy = false := by
  rw [poll_success_eq m c inp data hf, if_neg hne]
  have hh2 : (pollSuccessState m inp.now).influxHealthy = false := hh
  obtain ⟨h1, h2⟩ := routeData_unhealthy (pollSuccessState m inp.now) c data
    inp hh2 hp hr
  exact ⟨h2, h1⟩

/-! ### SyncCache and health-transition lemmas -/

/-- A drain attempt that hits a write failure returns with the cache and the
monitor exactly as they were; only an alert is emitted. -/
theorem SyncCache_fail (m : Monitor) (c : Cache) (sw : Nat → Bool)
    (clearSaveOk : Bool) (k : Nat) (hh : m.influxHealthy = true)
    (hk : firstFailBefore sw c.data.length = some k) :
    m.SyncCache c sw clearSaveOk =
      (m, c, [Ev.syncInvoked, Ev.note "Failed to sync cached data"]) := by
  have hne : c.data.length ≠ 0 := by
    intro h0
    rw [h0] at hk
    exact Option.noConfusion hk
  unfold Monitor.SyncCache
  simp only [hh, Bool.not_true, Bool.false_eq_true, if_false, Cache.GetAll]
  rw [if_neg hne, hk]

/-- A drain attempt in which every write succeeds empties the cache. -/
theorem SyncCache_success (m : Monitor) (c : Cache) (sw : Nat → Bool)
    (clearSaveOk : Bool) (hh : m.influxHealthy = true)
    (hne : c.data.length ≠ 0)
    (hall : firstFailBefore sw c.data.length = none) :
    (m.SyncCache c sw clearSaveOk).2.1 = ⟨[]⟩ := by
  unfold Monitor.SyncCache
  simp only [hh, Bool.not_true, Bool.false_eq_true, if_false, Cache.GetAll]
  rw [if_neg hne, hall]
  by_cases hcs : clearSaveOk <;> simp [Cache.Clear, hcs]

/-- A fully successful drain with a concurrent Add lands the whole cache,
including the concurrently added entries, in Cache.Clear: the result is
empty. -/
theorem SyncCacheWithConcurrentAdd_success (m : Monitor) (c : Cache)
    (extra : List DataPoint) (addSaveOk : Bool) (sw : Nat → Bool)
    (clearSaveOk : Bool) (hh : m.influxHealthy = true)
    (hne : c.data.length ≠ 0)
    (hall : firstFailBefore sw c.data.length = none) :
    (m.SyncCacheWithConcurrentAdd c extra addSaveOk sw clearSaveOk).2.1 =
      ⟨[]⟩ := by
  unfold Monitor.SyncCacheWithConcurrentAdd
  simp only [hh, Bool.not_true, Bool.false_eq_true, if_false, Cache.GetAll]
  rw [if_neg hne, hall]
  by_cases hcs : clearSaveOk <;> simp [Cache.Clear, hcs]

/-- Probe failure on a healthy monitor: flip to unhealthy, keep the cache,
emit only the probe and the lost-connection alert (no resync). -/
theorem checkInfluxHealth_lost (m : Monitor) (c : Cache) (sw : Nat → Bool)
    (clearSaveOk : Bool) (hcl : m.hasInfluxClient = true)
    (hh : m.influxHealthy = true) :
    m.checkInfluxHealth c false sw clearSaveOk =
      ({ m with influxHealthy := false }, c,
        [Ev.probe false, Ev.note "Connection to InfluxDB lost"]) := by
  unfold Monitor.checkInfluxHealth
  simp [hcl, hh]

/-- Probe success on an unhealthy monitor: flip to healthy and immediately
run SyncCache. -/
theorem checkInfluxHealth_restored (m : Monitor) (c : Cache)
    (sw : Nat → Bool) (clearSaveOk : Bool) (hcl : m.hasInfluxClient = true)
    (hh : m.influxHealthy = false) :
    m.checkInfluxHealth c true sw clearSaveOk =
      ((({ m with influxHealthy := true } : Monitor).SyncCache c sw
          clearSaveOk).1,
        (({ m with influxHealthy := true } : Monitor).SyncCache c sw
          clearSaveOk).2.1,
        [Ev.probe true, Ev.note "Connection to InfluxDB restored"] ++
          (({ m with influxHealthy := true } : Monitor).SyncCache c sw
            clearSaveOk).2.2) := by
  unfold Monitor.checkInfluxHealth
  simp [hcl, hh]

/-! ### Concrete fixtures for witnesses and counterexamples -/

/-- The default configuration values relevant to the monitor
(config.go defaultConfig). -/
def cfgD : Config :=
  { PollInterval := 30
    ConsecutiveErrorThreshold := defaultConsecutiveErrorThreshold
    MaxBackoffFactor := defaultMaxBackoffFactor }

def pA : DataPoint := ⟨1, 2, 3, 4, 5⟩

def pB : DataPoint := ⟨6, 7, 8, 9, 10⟩

def tA : TelemetryData := ⟨1, 2, 3, 4, 5⟩

def mHealthy : Monitor := Monitor.New cfgD true 100

def mUnhealthy : Monitor := { mHealthy with influxHealthy := false }

def mDegraded : Monitor :=
  { mHealthy with
    degradedMode := true
    backoffFactor := 4
    consecutiveErr := 5 }

def inpFail : PollInput :=
  { now := 200
    fetch := Except.error "boom"
    probeOk := false
    writeOk := fun _ => true
    syncWriteOk := fun _ => true
    addSaveOk := true
    clearSaveOk := true
    reconnectOk := false }

def inpOk1 : PollInput := { inpFail with fetch := Except.ok [tA] }

def inpEmpty : PollInput :=
  { inpFail with fetch := Except.ok ([] : List TelemetryData) }

def inpOkProbe : PollInput :=
  { inpFail with fetch := Except.ok [tA], probeOk := true }

/-! ### Claim theorems -/

/-- C9: if the on-disk snapshot write fails (saveOk = false), Cache.Add
returns the error but the appended points are still in the in-memory cache:
GetAll contains them and Count reflects them. -/
theorem claim_C9 (c : Cache) (dataPoints : List DataPoint) :
    (c.Add dataPoints false).2 =
      Except.error "failed to write cache file" ∧
    (c.Add dataPoints false).1.data = c.data ++ dataPoints ∧
    (∀ p ∈ dataPoints, p ∈ (c.Add dataPoints false).1.GetAll) ∧
    (c.Add dataPoints false).1.Count = c.Count + dataPoints.length := by
  refine ⟨rfl, rfl, ?_, ?_⟩
  · intro p hp
    simp only [Cache.Add, Cache.GetAll, List.mem_append]
    exact Or.inr hp
  · simp [Cache.Add, Cache.Count]

theorem claim_C9_witness :
    ((⟨[pA]⟩ : Cache).Add [pB] false).2 =
      Except.error "failed to write cache file" ∧
    pB ∈ ((⟨[pA]⟩ : Cache).Add [pB] false).1.GetAll ∧
    ((⟨[pA]⟩ : Cache).Add [pB] false).1.Count = 2 :=
  ⟨(claim_C9 ⟨[pA]⟩ [pB]).1,
    (claim_C9 ⟨[pA]⟩ [pB]).2.2.1 pB (by decide),
    (claim_C9 ⟨[pA]⟩ [pB]).2.2.2⟩

/-- C4: from a fresh monitor, after exactly threshold - 1 consecutive fetch
failures the monitor is not degraded and backoff is 1; the next (threshold-th)
failure enters degraded mode with backoff 2 and emits the degraded-mode
notification. -/
theorem claim_C4 (cfg : Config) (hc : Bool) (now : Int) (c0 c : Cache)
    (l : List PollInput) (inp : PollInput)
    (hth : 1 ≤ cfg.ConsecutiveErrorThreshold)
    (hlen : l.length = cfg.ConsecutiveErrorThreshold - 1)
    (hall : ∀ i ∈ l, i.fetchFails) (hlast : inp.fetchFails) :
    (runPolls (Monitor.New cfg hc now) c0 l).1.degradedMode = false ∧
    (runPolls (Monitor.New cfg hc now) c0 l).1.backoffFactor = 1 ∧
    ((runPolls (Monitor.New cfg hc now) c0 l).1.poll c inp).1.degradedMode
      = true ∧
    ((runPolls (Monitor.New cfg hc now) c0 l).1.poll c inp).1.backoffFactor
      = 2 ∧
    Ev.note "Entering degraded mode" ∈
      ((runPolls (Monitor.New cfg hc now) c0 l).1.poll c inp).2.2 := by
  have hrun := runPolls_allFail l (Monitor.New cfg hc now) c0 hall
  have hS : (runPolls (Monitor.New cfg hc now) c0 l).1 =
      failIter (Monitor.New cfg hc now) l.length := by rw [hrun]
  obtain ⟨hcfg, herr, _, _, hlow, _⟩ :=
    failIter_New_spec cfg hc now l.length hth
  obtain ⟨hd0, hb0⟩ := hlow (by omega)
  obtain ⟨e, he⟩ := hlast
  rw [hS]
  set S := failIter (Monitor.New cfg hc now) l.length with hSdef
  have hcond : S.Cfg.ConsecutiveErrorThreshold ≤ S.consecutiveErr + 1 := by
    rw [hcfg, herr]; omega
  have hps : (pollFailStep S).degradedMode = true ∧
      (pollFailStep S).backoffFactor = 2 := by
    unfold pollFailStep
    rw [if_pos hcond]
    simp [hd0]
  refine ⟨hd0, hb0, ?_, ?_, ?_⟩
  · rw [poll_fail S c inp e he]; exact hps.1
  · rw [poll_fail S c inp e he]; exact hps.2
  · rw [poll_fail S c inp e he]
    rw [if_pos ⟨hcond, hd0⟩]
    simp

theorem claim_C4_witness :
    (runPolls (Monitor.New cfgD true 0) ⟨[]⟩ [inpFail, inpFail]).1.degradedMode
      = false ∧
    (runPolls (Monitor.New cfgD true 0) ⟨[]⟩
      [inpFail, inpFail]).1.backoffFactor = 1 ∧
    ((runPolls (Monitor.New cfgD true 0) ⟨[]⟩
      [inpFail, inpFail]).1.poll ⟨[]⟩ inpFail).1.degradedMode = true ∧
    ((runPolls (Monitor.New cfgD true 0) ⟨[]⟩
      [inpFail, inpFail]).1.poll ⟨[]⟩ inpFail).1.backoffFactor = 2 ∧
    Ev.note "Entering degraded mode" ∈
      ((runPolls (Monitor.New cfgD true 0) ⟨[]⟩
        [inpFail, inpFail]).1.poll ⟨[]⟩ inpFail).2.2 :=
  claim_C4 cfgD true 0 ⟨[]⟩ ⟨[]⟩ [inpFail, inpFail] inpFail (by decide)
    (by decide) (by intro i hi; fin_cases hi <;> exact ⟨"boom", rfl⟩)
    ⟨"boom", rfl⟩

/-- C5: once degraded mode has been entered, with k failures counted from
the entering one, backoff equals min (k + 1) MaxBackoffFactor (for a cap of
at least 2); and from any degraded state a single successful fetch resets
backoff to 1 and leaves degraded mode. -/
theorem claim_C5 (cfg : Config) (hc : Bool) (now : Int) (c0 : Cache)
    (l : List PollInput) (k : Nat)
    (hth : 1 ≤ cfg.ConsecutiveErrorThreshold)
    (hmx : 2 ≤ cfg.MaxBackoffFactor) (hk : 1 ≤ k)
    (hlen : l.length = cfg.ConsecutiveErrorThreshold - 1 + k)
    (hall : ∀ i ∈ l, i.fetchFails) :
    (runPolls (Monitor.New cfg hc now) c0 l).1.backoffFactor =
      min (k + 1) cfg.MaxBackoffFactor ∧
    (∀ (m : Monitor) (c : Cache) (inp : PollInput)
        (data : List TelemetryData),
      inp.fetch = Except.ok data → m.degradedMode = true →
      (m.poll c inp).1.backoffFactor = 1 ∧
      (m.poll c inp).1.degradedMode = false) := by
  constructor
  · have hrun := runPolls_allFail l (Monitor.New cfg hc now) c0 hall
    have hS : (runPolls (Monitor.New cfg hc now) c0 l).1 =
        failIter (Monitor.New cfg hc now) l.length := by rw [hrun]
    obtain ⟨_, _, _, _, _, hhigh⟩ :=
      failIter_New_spec cfg hc now l.length hth
    obtain ⟨_, hb2, _⟩ := hhigh (by omega)
    have hbv := hb2 hmx
    rw [hS, hbv, hlen]
    omega
  · intro m c inp data hf hd
    obtain ⟨d1, d2, _, _, _, _⟩ := poll_success_monitor m c inp data hf
    refine ⟨?_, d1⟩
    rw [d2, if_pos hd]

theorem claim_C5_witness :
    (runPolls (Monitor.New cfgD true 0) ⟨[]⟩
      [inpFail, inpFail, inpFail, inpFail]).1.backoffFactor =
      min 3 cfgD.MaxBackoffFactor ∧
    (mDegraded.poll ⟨[]⟩ inpOk1).1.backoffFactor = 1 ∧
    (mDegraded.poll ⟨[]⟩ inpOk1).1.degradedMode = false :=
  ⟨(claim_C5 cfgD true 0 ⟨[]⟩ [inpFail, inpFail, inpFail, inpFail] 2
      (by decide) (by decide) (by decide) (by decide)
      (by intro i hi; fin_cases hi <;> exact ⟨"boom", rfl⟩)).1,
    (claim_C5 cfgD true 0 ⟨[]⟩ [inpFail, inpFail, inpFail, inpFail] 2
      (by decide) (by decide) (by decide) (by decide)
      (by intro i hi; fin_cases hi <;> exact ⟨"boom", rfl⟩)).2 mDegraded
      ⟨[]⟩ inpOk1 [tA] rfl rfl |>.1,
    (claim_C5 cfgD true 0 ⟨[]⟩ [inpFail, inpFail, inpFail, inpFail] 2
      (by decide) (by decide) (by decide) (by decide)
      (by intro i hi; fin_cases hi <;> exact ⟨"boom", rfl⟩)).2 mDegraded
      ⟨[]⟩ inpOk1 [tA] rfl rfl |>.2⟩

/-- C6: every state reachable from a fresh monitor by poll cycles satisfies
the MonitorState invariant (degraded iff the error count reached the
threshold; backoff 1 whenever not degraded), and across any single further
cycle during which degraded mode persists the backoff factor does not
decrease. -/
theorem claim_C6 (cfg : Config) (hc : Bool) (now : Int) (c0 : Cache)
    (l : List PollInput) (hth : 1 ≤ cfg.ConsecutiveErrorThreshold) :
    MonitorInv (runPolls (Monitor.New cfg hc now) c0 l).1 ∧
    (∀ (c : Cache) (inp : PollInput),
      (runPolls (Monitor.New cfg hc now) c0 l).1.degradedMode = true →
      ((runPolls (Monitor.New cfg hc now) c0 l).1.poll c
        inp).1.degradedMode = true →
      (runPolls (Monitor.New cfg hc now) c0 l).1.backoffFactor ≤
        ((runPolls (Monitor.New cfg hc now) c0 l).1.poll c
          inp).1.backoffFactor) := by
  have hinv := (runPolls_inv l (Monitor.New cfg hc now) c0 hth
    (MonitorInv_New cfg hc now hth)).1
  exact ⟨hinv, fun c inp hd hd' => poll_backoff_mono _ c inp hd hd'⟩

theorem claim_C6_witness :
    MonitorInv (runPolls (Monitor.New cfgD true 0) ⟨[]⟩
      [inpFail, inpFail, inpFail]).1 ∧
    (runPolls (Monitor.New cfgD true 0) ⟨[]⟩
      [inpFail, inpFail, inpFail]).1.backoffFactor ≤
      ((runPolls (Monitor.New cfgD true 0) ⟨[]⟩
        [inpFail, inpFail, inpFail]).1.poll ⟨[]⟩ inpFail).1.backoffFactor :=
  ⟨(claim_C6 cfgD true 0 ⟨[]⟩ [inpFail, inpFail, inpFail] (by decide)).1,
    (claim_C6 cfgD true 0 ⟨[]⟩ [inpFail, inpFail, inpFail] (by decide)).2
      ⟨[]⟩ inpFail (by decide) (by decide)⟩

/-- C8: the first window starts at construction time minus the poll
interval; after a successful cycle the next window starts exactly at the
previous window's end; a failed cycle leaves the window start unchanged. -/
theorem claim_C8 :
    (∀ (cfg : Config) (hc : Bool) (now : Int),
      (Monitor.New cfg hc now).LastPollTime = now - cfg.PollInterval) ∧
    (∀ (m : Monitor) (c : Cache) (i1 i2 : PollInput)
        (data : List TelemetryData), i1.fetch = Except.ok data →
      (pollWindow (m.poll c i1).1 i2).1 = (pollWindow m i1).2) ∧
    (∀ (m : Monitor) (c : Cache) (i1 i2 : PollInput) (e : String),
      i1.fetch = Except.error e →
      (pollWindow (m.poll c i1).1 i2).1 = (pollWindow m i1).1) := by
  refine ⟨fun cfg hc now => rfl, ?_, ?_⟩
  · intro m c i1 i2 data hf
    exact (poll_success_monitor m c i1 data hf).2.2.2.1
  · intro m c i1 i2 e hf
    rw [poll_fail m c i1 e hf]
    exact (pollFailStep_frame m).2.2.2.1

theorem claim_C8_witness :
    (Monitor.New cfgD true 0).LastPollTime = 0 - cfgD.PollInterval ∧
    (pollWindow (mHealthy.poll ⟨[]⟩ inpOk1).1 inpFail).1 =
      (pollWindow mHealthy inpOk1).2 ∧
    (pollWindow (mHealthy.poll ⟨[]⟩ inpFail).1 inpOk1).1 =
      (pollWindow mHealthy inpFail).1 :=
  ⟨claim_C8.1 cfgD true 0,
    claim_C8.2.1 mHealthy ⟨[]⟩ inpOk1 inpFail [tA] rfl,
    claim_C8.2.2 mHealthy ⟨[]⟩ inpFail inpOk1 "boom" rfl⟩

/-- C10: a successful fetch with an empty batch resets the error count,
leaves degraded mode with backoff back at 1 (assuming the backoff invariant
for non-degraded states), advances LastPollTime to the window end, and
changes nothing else: the cache and the sink-health flag are untouched and
no probe, sink write, cache push or resync happens. -/
theorem claim_C10 (m : Monitor) (c : Cache) (inp : PollInput)
    (hf : inp.fetch = Except.ok ([] : List TelemetryData))
    (hb : m.degradedMode = false → m.backoffFactor = 1) :
    (m.poll c inp).1.consecutiveErr = 0 ∧
    (m.poll c inp).1.degradedMode = false ∧
    (m.poll c inp).1.backoffFactor = 1 ∧
    (m.poll c inp).1.LastPollTime = inp.now ∧
    (m.poll c inp).1.influxHealthy = m.influxHealthy ∧
    (m.poll c inp).2.1 = c ∧
    (∀ b, Ev.probe b ∉ (m.poll c inp).2.2) ∧
    (∀ n, Ev.writeBatch n ∉ (m.poll c inp).2.2) ∧
    (∀ n, Ev.cacheAdd n ∉ (m.poll c inp).2.2) ∧
    Ev.syncInvoked ∉ (m.poll c inp).2.2 := by
  rw [poll_success_eq m c inp [] hf]
  simp only [List.length_nil, eq_self_iff_true, if_true]
  refine ⟨rfl, rfl, ?_, rfl, rfl, trivial, ?_, ?_, ?_, ?_⟩
  · by_cases hd : m.degradedMode
    · simp [pollSuccessState, hd]
    · have hdf : m.degradedMode = false := by
        cases hMd : m.degradedMode
        · rfl
        · exact absurd hMd hd
      simp [pollSuccessState, hdf, hb hdf]
  · intro b; by_cases hd : m.degradedMode <;> simp [hd]
  · intro n; by_cases hd : m.degradedMode <;> simp [hd]
  · intro n; by_cases hd : m.degradedMode <;> simp [hd]
  · by_cases hd : m.degradedMode <;> simp [hd]

theorem claim_C10_witness :
    (mHealthy.poll ⟨[pA]⟩ inpEmpty).1.consecutiveErr = 0 ∧
    (mHealthy.poll ⟨[pA]⟩ inpEmpty).1.degradedMode = false ∧
    (mHealthy.poll ⟨[pA]⟩ inpEmpty).1.backoffFactor = 1 ∧
    (mHealthy.poll ⟨[pA]⟩ inpEmpty).1.LastPollTime = inpEmpty.now ∧
    (mHealthy.poll ⟨[pA]⟩ inpEmpty).1.influxHealthy =
      mHealthy.influxHealthy ∧
    (mHealthy.poll ⟨[pA]⟩ inpEmpty).2.1 = ⟨[pA]⟩ ∧
    (∀ b, Ev.probe b ∉ (mHealthy.poll ⟨[pA]⟩ inpEmpty).2.2) ∧
    (∀ n, Ev.writeBatch n ∉ (mHealthy.poll ⟨[pA]⟩ inpEmpty).2.2) ∧
    (∀ n, Ev.cacheAdd n ∉ (mHealthy.poll ⟨[pA]⟩ inpEmpty).2.2) ∧
    Ev.syncInvoked ∉ (mHealthy.poll ⟨[pA]⟩ inpEmpty).2.2 :=
  claim_C10 mHealthy ⟨[pA]⟩ inpEmpty rfl (fun _ => rfl)

/-- C2: while the sink is unreachable (unhealthy, and both the per-cycle
probe and the reconnect probe keep failing), every successfully fetched
non-empty batch is appended whole to the cache, and after N such batches of
size m each the cache count has grown by N * m. -/
theorem claim_C2 (mSize : Nat) (hm : 0 < mSize) :
    (∀ (m : Monitor) (c : Cache) (inp : PollInput)
        (data : List TelemetryData),
      m.influxHealthy = false → inp.fetch = Except.ok data →
      data.length ≠ 0 → inp.probeOk = false → inp.reconnectOk = false →
      (m.poll c inp).2.1.data = c.data ++ data.map toCacheDataPoint) ∧
    (∀ (m : Monitor) (c : Cache) (l : List PollInput),
      m.influxHealthy = false →
      (∀ inp ∈ l,
        (∃ data, inp.fetch = Except.ok data ∧ data.length = mSize) ∧
        inp.probeOk = false ∧ inp.reconnectOk = false) →
      (runPolls m c l).2.Count = c.Count + l.length * mSize) := by
  constructor
  · intro m c inp data hh hf hne hp hr
    exact (poll_unhealthy_caches m c inp data hh hf hne hp hr).1
  · intro m c l
    induction l generalizing m c with
    | nil => intro _ _; simp [runPolls]
    | cons inp rest ih =>
        intro hh hl
        obtain ⟨⟨data, hf, hlen⟩, hp, hr⟩ := hl inp (by simp)
        have hne : data.length ≠ 0 := by omega
        obtain ⟨hc1, hm1⟩ := poll_unhealthy_caches m c inp data hh hf hne hp hr
        simp only [runPolls]
        rw [ih (m.poll c inp).1 (m.poll c inp).2.1 hm1
          (fun i hi => hl i (by simp [hi]))]
        have hcount : (m.poll c inp).2.1.Count = c.Count + mSize := by
          unfold Cache.Count
          rw [hc1]
          simp [hlen]
        rw [hcount]
        simp only [List.length_cons]
        ring

theorem claim_C2_witness :
    0 < 1 ∧
    (mUnhealthy.poll ⟨[]⟩ inpOk1).2.1.data =
      ([] : List DataPoint) ++ [tA].map toCacheDataPoint ∧
    (runPolls mUnhealthy ⟨[]⟩ [inpOk1, inpOk1]).2.Count =
      (⟨[]⟩ : Cache).Count + 2 * 1 :=
  ⟨by decide,
    (claim_C2 1 (by decide)).1 mUnhealthy ⟨[]⟩ inpOk1 [tA] rfl rfl
      (by decide) rfl rfl,
    (claim_C2 1 (by decide)).2 mUnhealthy ⟨[]⟩ [inpOk1, inpOk1] rfl
      (by intro i hi; fin_cases hi <;> exact ⟨⟨[tA], rfl, rfl⟩, rfl, rfl⟩)⟩

/-- C1 counterexample: a drain over a healthy monitor and a one-entry cache
whose single write fails leaves the cache intact, but influxHealthy stays
true — the claim's "sinkHealthy == false" is refuted (SyncCache never marks
the sink unhealthy; it only runs while healthy and returns on failure). -/
theorem claim_C1_counterexample :
    (mHealthy.SyncCache ⟨[pA]⟩ (fun _ => false) true).2.1 = ⟨[pA]⟩ ∧
    ¬ ((mHealthy.SyncCache ⟨[pA]⟩ (fun _ => false) true).1.influxHealthy
        = false) := by decide

/-- C1 (amended): if the cache drain hits a write failure at some entry, the
cache keeps all its original entries and the monitor is entirely unchanged —
in particular influxHealthy remains true (it is not set to false). -/
theorem claim_C1 (m : Monitor) (c : Cache) (sw : Nat → Bool)
    (clearSaveOk : Bool) (k : Nat) (hh : m.influxHealthy = true)
    (hk : firstFailBefore sw c.data.length = some k) :
    (m.SyncCache c sw clearSaveOk).2.1 = c ∧
    (m.SyncCache c sw clearSaveOk).1 = m ∧
    (m.SyncCache c sw clearSaveOk).1.influxHealthy = true := by
  rw [SyncCache_fail m c sw clearSaveOk k hh hk]
  exact ⟨rfl, rfl, hh⟩

theorem claim_C1_witness :
    (mHealthy.SyncCache ⟨[pA, pB]⟩ (fun i => decide (i = 0)) true).2.1 =
      ⟨[pA, pB]⟩ ∧
    (mHealthy.SyncCache ⟨[pA, pB]⟩ (fun i => decide (i = 0)) true).1 =
      mHealthy ∧
    (mHealthy.SyncCache ⟨[pA, pB]⟩
      (fun i => decide (i = 0)) true).1.influxHealthy = true :=
  claim_C1 mHealthy ⟨[pA, pB]⟩ (fun i => decide (i = 0)) true 1 (by decide)
    (by decide)

/-- C3 counterexample: drain a one-entry cache with every write succeeding
while a concurrent Add lands pB between the snapshot read and Clear: the
resulting cache is empty — the concurrently added entry does NOT remain,
because Cache.Clear wipes the whole list, not just the snapshot. -/
theorem claim_C3_counterexample :
    ¬ (pB ∈ (mHealthy.SyncCacheWithConcurrentAdd ⟨[pA]⟩ [pB] true
        (fun _ => true) true).2.1.data) ∧
    (mHealthy.SyncCacheWithConcurrentAdd ⟨[pA]⟩ [pB] true
      (fun _ => true) true).2.1.data = [] := by decide

/-- C3 (amended): a fully successful drain empties the entire cache: with no
concurrent push the cache is empty afterward, and entries pushed
concurrently between the snapshot read and Clear are removed as well. -/
theorem claim_C3 (m : Monitor) (c : Cache) (sw : Nat → Bool)
    (clearSaveOk : Bool) (extra : List DataPoint) (addSaveOk : Bool)
    (hh : m.influxHealthy = true) (hne : c.data.length ≠ 0)
    (hall : firstFailBefore sw c.data.length = none) :
    (m.SyncCache c sw clearSaveOk).2.1.data = [] ∧
    (m.SyncCacheWithConcurrentAdd c extra addSaveOk sw
      clearSaveOk).2.1.data = [] := by
  constructor
  · rw [SyncCache_success m c sw clearSaveOk hh hne hall]
  · rw [SyncCacheWithConcurrentAdd_success m c extra addSaveOk sw
      clearSaveOk hh hne hall]

theorem claim_C3_witness :
    (mHealthy.SyncCache ⟨[pA]⟩ (fun _ => true) true).2.1.data = [] ∧
    (mHealthy.SyncCacheWithConcurrentAdd ⟨[pA]⟩ [pB] true
      (fun _ => true) true).2.1.data = [] :=
  claim_C3 mHealthy ⟨[pA]⟩ (fun _ => true) true [pB] true (by decide)
    (by decide) (by decide)

/-- C7: (a) a failing probe on a healthy sink flips it to unhealthy, leaves
the cache alone and performs no resync; (b) a succeeding probe on an
unhealthy sink flips it to healthy and invokes SyncCache synchronously;
(c) in a full cycle that fetches a non-empty batch while unhealthy with a
succeeding probe, the resync happens strictly before any batch write to the
sink. -/
theorem claim_C7 :
    (∀ (m : Monitor) (c : Cache) (sw : Nat → Bool) (clearSaveOk : Bool),
      m.hasInfluxClient = true → m.influxHealthy = true →
      (m.checkInfluxHealth c false sw clearSaveOk).1.influxHealthy = false ∧
      (m.checkInfluxHealth c false sw clearSaveOk).2.1 = c ∧
      Ev.syncInvoked ∉ (m.checkInfluxHealth c false sw clearSaveOk).2.2) ∧
    (∀ (m : Monitor) (c : Cache) (sw : Nat → Bool) (clearSaveOk : Bool),
      m.hasInfluxClient = true → m.influxHealthy = false →
      (m.checkInfluxHealth c true sw clearSaveOk).1.influxHealthy = true ∧
      Ev.syncInvoked ∈ (m.checkInfluxHealth c true sw clearSaveOk).2.2) ∧
    (∀ (m : Monitor) (c : Cache) (inp : PollInput)
        (data : List TelemetryData),
      m.hasInfluxClient = true → m.influxHealthy = false →
      inp.fetch = Except.ok data → data.length ≠ 0 → inp.probeOk = true →
      ∃ pre post, (m.poll c inp).2.2 = pre ++ Ev.syncInvoked :: post ∧
        ∀ n, Ev.writeBatch n ∉ pre) := by
  refine ⟨?_, ?_, ?_⟩
  · intro m c sw clearSaveOk hcl hh
    rw [checkInfluxHealth_lost m c sw clearSaveOk hcl hh]
    exact ⟨rfl, rfl, by simp⟩
  · intro m c sw clearSaveOk hcl hh
    rw [checkInfluxHealth_restored m c sw clearSaveOk hcl hh]
    constructor
    · rw [SyncCache_monitor]
    · obtain ⟨rest, hrest⟩ := SyncCache_events_head
        ({ m with influxHealthy := true } : Monitor) c sw clearSaveOk
      rw [hrest]
      simp
  · intro m c inp data hcl hh hf hne hp
    rw [poll_success_eq m c inp data hf, if_neg hne]
    have hcl2 : (pollSuccessState m inp.now).hasInfluxClient = true := hcl
    have hh2 : (pollSuccessState m inp.now).influxHealthy = false := hh
    show ∃ pre post,
      (if m.degradedMode then [Ev.note "Recovered from degraded mode"]
        else ([] : List Ev)) ++
        ((pollSuccessState m inp.now).routeData c data inp).2.2 =
        pre ++ Ev.syncInvoked :: post ∧ ∀ n, Ev.writeBatch n ∉ pre
    have hE0 : ∀ n, Ev.writeBatch n ∉
        (if m.degradedMode then [Ev.note "Recovered from degraded mode"]
          else ([] : List Ev)) := by
      intro n; by_cases hd : m.degradedMode <;> simp [hd]
    unfold Monitor.routeData
    rw [hp]
    rw [checkInfluxHealth_restored (pollSuccessState m inp.now) c
      inp.syncWriteOk inp.clearSaveOk hcl2 hh2]
    rw [SyncCache_monitor]
    obtain ⟨rest, hrest⟩ := SyncCache_events_head
      ({ pollSuccessState m inp.now with influxHealthy := true } : Monitor)
      c inp.syncWriteOk inp.clearSaveOk
    rw [hrest]
    simp only [show ({ pollSuccessState m inp.now with
      influxHealthy := true } : Monitor).influxHealthy = true from rfl,
      if_true]
    cases hw : writeToInflux data inp.writeOk with
    | ok u =>
        refine ⟨(if m.degradedMode then
            [Ev.note "Recovered from degraded mode"] else ([] : List Ev)) ++
            [Ev.probe true, Ev.note "Connection to InfluxDB restored"],
          rest ++ [Ev.writeBatch data.length], by simp, ?_⟩
        intro n
        simp only [List.mem_append, not_or]
        exact ⟨hE0 n, by simp⟩
    | error err =>
        refine ⟨(if m.degradedMode then
            [Ev.note "Recovered from degraded mode"] else ([] : List Ev)) ++
            [Ev.probe true, Ev.note "Connection to InfluxDB restored"],
          rest ++ ([Ev.writeBatch data.length,
            Ev.note "Failed to write data"] ++
            (cacheData ((({ pollSuccessState m inp.now with
                influxHealthy := true } : Monitor).SyncCache c
              inp.syncWriteOk inp.clearSaveOk).2.1) data inp.addSaveOk).2),
          by simp, ?_⟩
        intro n
        simp only [List.mem_append, not_or]
        exact ⟨hE0 n, by simp⟩

theorem claim_C7_witness :
    (mHealthy.checkInfluxHealth ⟨[pA]⟩ false
      (fun _ => true) true).1.influxHealthy = false ∧
    Ev.syncInvoked ∉
      (mHealthy.checkInfluxHealth ⟨[pA]⟩ false (fun _ => true) true).2.2 ∧
    (mUnhealthy.checkInfluxHealth ⟨[pA]⟩ true
      (fun _ => true) true).1.influxHealthy = true ∧
    Ev.syncInvoked ∈
      (mUnhealthy.checkInfluxHealth ⟨[pA]⟩ true (fun _ => true) true).2.2 ∧
    (∃ pre post,
      (mUnhealthy.poll ⟨[]⟩ inpOkProbe).2.2 =
        pre ++ Ev.syncInvoked :: post ∧ ∀ n, Ev.writeBatch n ∉ pre) :=
  ⟨(claim_C7.1 mHealthy ⟨[pA]⟩ (fun _ => true) true rfl rfl).1,
    (claim_C7.1 mHealthy ⟨[pA]⟩ (fun _ => true) true rfl rfl).2.2,
    (claim_C7.2.1 mUnhealthy ⟨[pA]⟩ (fun _ => true) true rfl rfl).1,
    (claim_C7.2.1 mUnhealthy ⟨[pA]⟩ (fun _ => true) true rfl rfl).2,
    claim_C7.2.2 mUnhealthy ⟨[]⟩ inpOkProbe [tA] rfl rfl rfl (by decide) rfl⟩

end OctopusMonitor
